import Mathlib

/-!
Shallow embedding of `act4brd/data_types/brd_graph.py` (the service-network
design and flow-analysis core) together with the graph helpers it relies on.

Conventions of the embedding:
* Python `int` becomes `Int`, Python `float` becomes `Rat` (exact arithmetic
  standing in for IEEE doubles; all values appearing in the claims are small
  exact decimals, so no rounding behaviour is load-bearing).
* A Python `dict` becomes an association list in insertion order; lookup and
  update act on the first matching key, iteration over the dict yields the
  keys in order, exactly as in CPython.
* Code that can raise returns `Except PyErr _` or a `_ × Option PyErr` pair
  (the latter for mutating methods, whose receiver state is observable even
  when the call raises).
* `Bus` instances carry the hidden `_uuid` field of the dataclass, so two
  buses are equal exactly when all attributes including the uuid agree.
-/

set_option autoImplicit false

namespace Act4brd

/-- Decidable equality of `Except` results, used to state concrete
evaluations of fallible operations. -/
instance {ε α : Type} [DecidableEq ε] [DecidableEq α] : DecidableEq (Except ε α) := by
  intro x y
  cases x <;> cases y
  case error.error a b =>
    exact if h : a = b then Decidable.isTrue (by rw [h]) else Decidable.isFalse (by simp [h])
  case ok.ok a b =>
    exact if h : a = b then Decidable.isTrue (by rw [h]) else Decidable.isFalse (by simp [h])
  case error.ok a b => exact Decidable.isFalse (by simp)
  case ok.error a b => exact Decidable.isFalse (by simp)

/-- The kinds of exception the embedded code can raise. -/
inductive PyErr where
  | valueError
  | keyError
  | indexError
  | zeroDivisionError
  | networkXNoPath
  deriving DecidableEq, Repr

/-- Attribute dictionary of one graph edge.  Street edges supplied by the
caller may or may not carry each attribute, hence the `Option`s; reading an
absent attribute with `d[...]` raises `KeyError`. -/
structure EdgeData where
  weight : Option Rat
  typ : Option String
  route_id : Option String
  discomfort : Option Rat
  deriving DecidableEq, Repr

/-- The undirected weighted street network (`nx.Graph`): edge list in
insertion order.  `nx.Graph` keeps at most one edge per node pair; the
designs in the claims respect that, and only lookup of the first match is
ever exercised. -/
structure StreetGraph where
  edges : List (Int × Int × EdgeData)
  deriving DecidableEq, Repr

/-- A directed multigraph (`nx.MultiDiGraph`): parallel edges allowed, kept
in insertion order, so the parallel edge with key `0` is the first one in
the list. -/
structure ServiceGraph where
  edges : List (Int × Int × EdgeData)
  deriving DecidableEq, Repr

/-- Embedded `Bus` dataclass.  `uuid` embeds the generated `_uuid` field: identity is
distinct per instance even if the visible attributes are equal. -/
structure Bus where
  name : String
  capacity : Int
  per_mile_emissions : Rat
  procurement_price : Int
  annual_maintenance_cost : Int
  discomfort_level : Int
  avg_speed : Rat
  uuid : Nat
  deriving DecidableEq, Repr

/-- Embedded `Route` dataclass (its `__post_init__` demands at least two nodes; that
check is `routeValid`). -/
structure Route where
  name : String
  nodes : List Int
  deriving DecidableEq, Repr

/-- Embedding of `Route.__post_init__`: construction succeeds iff the node list has at
least two entries. -/
def routeValid (r : Route) : Bool :=
  2 ≤ r.nodes.length

/-- Embedded `ODFlow` dataclass. -/
structure ODFlow where
  origin : Int
  destination : Int
  flow : Int
  deriving DecidableEq, Repr

/-- Embedding of `ODFlow.__post_init__`: rejects negative flow and equal
origin/destination, in that order; everything else is accepted. -/
def odflowValid (f : ODFlow) : Bool :=
  0 ≤ f.flow && f.origin != f.destination

/-- Embedded `Operator` dataclass. -/
structure Operator where
  annual_salary : Int
  deriving DecidableEq, Repr

/-- Embedded `FleetComposition` after `__post_init__` has resolved the operator
default, so `operators` is a plain list. -/
structure FleetComposition where
  fleet : List Bus
  operators : List Operator
  deriving DecidableEq, Repr

def FleetComposition.total_capacity (c : FleetComposition) : Int :=
  (c.fleet.map (·.capacity)).sum

def FleetComposition.total_capital_cost (c : FleetComposition) : Int :=
  (c.fleet.map (·.procurement_price)).sum

def FleetComposition.total_operational_cost (c : FleetComposition) : Int :=
  (c.operators.map (·.annual_salary)).sum + (c.fleet.map (·.annual_maintenance_cost)).sum

/-! ### Python dict semantics -/

/-- Lookup `d[k]` as an `Option`: value at the first (unique, in a real dict)
matching key. -/
def dictGet {α : Type} (l : List (Bus × α)) (b : Bus) : Option α :=
  (l.find? (fun p => p.1 = b)).map (·.2)

/-- Update `d[k] = v`: update the first matching key in place, else append the new
key (CPython appends new keys at the end of the insertion order). -/
def dictSet {α : Type} (l : List (Bus × α)) (b : Bus) (v : α) : List (Bus × α) :=
  match l with
  | [] => [(b, v)]
  | p :: rest => if p.1 = b then (b, v) :: rest else p :: dictSet rest b v

/-- Iterating a dict yields its keys in insertion order. -/
def dictKeys {α : Type} (l : List (Bus × α)) : List Bus :=
  l.map (·.1)

/-- Python truthiness of a `Bus` instance: the dataclass defines neither
`__bool__` nor `__len__`, so every instance is truthy. -/
def pyTruthyBus (_ : Bus) : Bool :=
  true

/-- Python `==` between a `Bus` and a `Route`: the generated dataclass
`__eq__` returns `NotImplemented` for a different class on both sides, so
`==` falls back to identity, and a `Bus` object is never the same object as
a `Route`. -/
def pyEqBusRoute (_ : Bus) (_ : Route) : Bool :=
  false

/-! ### FleetAssignment -/

/-- Embedded `FleetAssignment` with the dict-typed state its dataclass declares:
`assigned_buses : dict[Bus, bool]` and
`assigned_bus_routes : dict[Bus, Optional[Route]]`, as association lists in
insertion order. -/
structure FleetAssignment where
  composition : FleetComposition
  assigned_buses : List (Bus × Bool)
  assigned_bus_routes : List (Bus × Option Route)
  deriving DecidableEq, Repr

/-- Embedding of `FleetAssignment.__post_init__` when both state arguments are left at
their default `None`: one dict entry per fleet bus, flag `False`, route
`None`. -/
def FleetAssignment.default (c : FleetComposition) : FleetAssignment :=
  { composition := c
    assigned_buses := c.fleet.map (fun b => (b, false))
    assigned_bus_routes := c.fleet.map (fun b => (b, none)) }

/-- Embedding of `FleetAssignment.assign_bus_to_route`.  Checks run before any write:
raises if the bus is not a key of `assigned_buses`, then if its flag is
already true; otherwise sets the flag and records the route.  Returns the
post-call state together with the raised error, if any. -/
def assign_bus_to_route (fa : FleetAssignment) (bus : Bus) (route : Route) :
    FleetAssignment × Option PyErr :=
  match dictGet fa.assigned_buses bus with
  | none => (fa, some PyErr.valueError)
  | some true => (fa, some PyErr.valueError)
  | some false =>
      ({ fa with
          assigned_buses := dictSet fa.assigned_buses bus true
          assigned_bus_routes := dictSet fa.assigned_bus_routes bus (some route) },
        none)

/-- The generator `zip(self.composition.fleet, self.assigned_buses,
self.assigned_bus_routes)` used by every per-route query.  Iterating the two
dicts yields their *keys* (both of type `Bus`), so the triple is
(fleet bus, key of `assigned_buses`, key of `assigned_bus_routes`). -/
def routeQueryTriples (fa : FleetAssignment) : List (Bus × Bus × Bus) :=
  fa.composition.fleet.zip ((dictKeys fa.assigned_buses).zip (dictKeys fa.assigned_bus_routes))

/-- The filter `if assigned and assigned_route == route` of the per-route
queries, where `assigned` and `assigned_route` are dict keys (buses). -/
def routeQueryFilter (route : Route) (t : Bus × Bus × Bus) : Bool :=
  pyTruthyBus t.2.1 && pyEqBusRoute t.2.2 route

/-- Embedding of `FleetAssignment.capacity_for_route`. -/
def capacity_for_route (fa : FleetAssignment) (route : Route) : Int :=
  (((routeQueryTriples fa).filter (routeQueryFilter route)).map (·.1.capacity)).sum

/-- Embedding of `FleetAssignment.capital_cost_for_route`. -/
def capital_cost_for_route (fa : FleetAssignment) (route : Route) : Int :=
  (((routeQueryTriples fa).filter (routeQueryFilter route)).map (·.1.procurement_price)).sum

/-- The first generator of `operational_cost_for_route`, zipping the
operators with the two dicts' keys. -/
def operatorQueryTriples (fa : FleetAssignment) : List (Operator × Bus × Bus) :=
  fa.composition.operators.zip ((dictKeys fa.assigned_buses).zip (dictKeys fa.assigned_bus_routes))

/-- Embedding of `FleetAssignment.operational_cost_for_route`. -/
def operational_cost_for_route (fa : FleetAssignment) (route : Route) : Int :=
  (((operatorQueryTriples fa).filter
      (fun t => pyTruthyBus t.2.1 && pyEqBusRoute t.2.2 route)).map (·.1.annual_salary)).sum
    + (((routeQueryTriples fa).filter (routeQueryFilter route)).map
        (·.1.annual_maintenance_cost)).sum

/-- Embedding of `FleetAssignment.emissions_for_route`. -/
def emissions_for_route (fa : FleetAssignment) (route : Route) : Rat :=
  (((routeQueryTriples fa).filter (routeQueryFilter route)).map (·.1.per_mile_emissions)).sum

/-- Embedding of `FleetAssignment.num_buses_assigned_to_route`. -/
def num_buses_assigned_to_route (fa : FleetAssignment) (route : Route) : Int :=
  (((routeQueryTriples fa).filter (routeQueryFilter route)).map (fun _ => (1 : Int))).sum

/-- Embedding of `FleetAssignment.total_emissions`: `zip(self.composition.fleet,
self.assigned_buses)` pairs each fleet bus with a dict *key* (a bus), and
`if assigned` tests that key's truthiness. -/
def total_emissions (fa : FleetAssignment) : Rat :=
  (((fa.composition.fleet.zip (dictKeys fa.assigned_buses)).filter
      (fun p => pyTruthyBus p.2)).map (·.1.per_mile_emissions)).sum

/-- Embedding of `FleetAssignment.buses_assigned`: `all(self.assigned_buses)` iterates
the dict keys and tests each key's truthiness. -/
def buses_assigned (fa : FleetAssignment) : Bool :=
  (dictKeys fa.assigned_buses).all pyTruthyBus

/-! ### Claim-side (spec-worded) views of the assignment queries -/

/-- Modelled from the spec: "each per-route derived query sums over exactly
the buses that are assigned (assigned flag true) and whose recorded route
equals the given route" — the semantic flag and route of a bus, read from
the two state dicts. -/
def specBusOnRoute (fa : FleetAssignment) (route : Route) (bus : Bus) : Bool :=
  dictGet fa.assigned_buses bus == some true
    && dictGet fa.assigned_bus_routes bus == some (some route)

/-- Modelled from the spec: capacity for a route sums the capacities of the
assigned buses recorded on that route. -/
def spec_capacity_for_route (fa : FleetAssignment) (route : Route) : Int :=
  ((fa.composition.fleet.filter (specBusOnRoute fa route)).map (·.capacity)).sum

/-- Modelled from the spec: capital cost for a route sums those buses'
procurement prices. -/
def spec_capital_cost_for_route (fa : FleetAssignment) (route : Route) : Int :=
  ((fa.composition.fleet.filter (specBusOnRoute fa route)).map (·.procurement_price)).sum

/-- Modelled from the spec: operational cost for a route sums those buses'
operators' salaries (operators matched to buses by fleet position) plus
those buses' maintenance costs. -/
def spec_operational_cost_for_route (fa : FleetAssignment) (route : Route) : Int :=
  (((fa.composition.fleet.zip fa.composition.operators).filter
      (fun p => specBusOnRoute fa route p.1)).map (·.2.annual_salary)).sum
    + ((fa.composition.fleet.filter (specBusOnRoute fa route)).map
        (·.annual_maintenance_cost)).sum

/-- Modelled from the spec: emissions for a route sums those buses'
per-distance emission rates. -/
def spec_emissions_for_route (fa : FleetAssignment) (route : Route) : Rat :=
  ((fa.composition.fleet.filter (specBusOnRoute fa route)).map (·.per_mile_emissions)).sum

/-- Modelled from the spec: the count of assigned buses recorded on the
route. -/
def spec_num_buses_assigned_to_route (fa : FleetAssignment) (route : Route) : Int :=
  ((fa.composition.fleet.filter (specBusOnRoute fa route)).map (fun _ => (1 : Int))).sum

/-- Modelled from the spec: total emissions of exactly the buses whose
assigned flag is true. -/
def spec_total_emissions (fa : FleetAssignment) : Rat :=
  ((fa.composition.fleet.filter
      (fun b => dictGet fa.assigned_buses b == some true)).map (·.per_mile_emissions)).sum

/-- Modelled from the spec: "fully assigned" means every bus of the
composition has its assigned flag true. -/
def spec_buses_assigned (fa : FleetAssignment) : Bool :=
  fa.composition.fleet.all (fun b => dictGet fa.assigned_buses b == some true)

/-! ### ServiceNetworkDesign: state, validation, graph construction -/

/-- Embedded `ServiceNetworkDesign` dataclass state.  The two history lists start
empty (`init=False` fields with empty defaults). -/
structure ServiceNetworkDesign where
  routes : List Route
  od_flows : List ODFlow
  fleet_composition : FleetComposition
  street_network_graph : StreetGraph
  fleet_assignments : List FleetAssignment
  service_network_graphs : List ServiceGraph
  deriving DecidableEq, Repr

/-- Consecutive node pairs of a route: `zip(nodes[:-1], nodes[1:])`. -/
def consecPairs (l : List Int) : List (Int × Int) :=
  l.zip l.tail

/-- Embedding of `G.has_edge(u, v)` on the undirected street network. -/
def streetHasEdge (g : StreetGraph) (u v : Int) : Bool :=
  g.edges.any (fun e => (e.1 = u && e.2.1 = v) || (e.1 = v && e.2.1 = u))

/-- Undirected neighbours of a node in the street network. -/
def streetNeighbors (g : StreetGraph) (u : Int) : List Int :=
  g.edges.filterMap (fun e =>
    if e.1 = u then some e.2.1 else if e.2.1 = u then some e.1 else none)

/-- Fuelled breadth-first expansion of a node set in the street network. -/
def streetReachAux (g : StreetGraph) : Nat → List Int → List Int
  | 0, acc => acc
  | n + 1, acc =>
      let fresh := ((acc.flatMap (streetNeighbors g)).filter (· ∉ acc)).dedup
      if fresh.isEmpty then acc else streetReachAux g n (acc ++ fresh)

/-- Embedding of `nx.has_path(G, o, d)`: undirected reachability.  (When `o` is not a
node of the graph networkx raises `NodeNotFound`; either way the design
constructor aborts, so the embedding folds that case into `false`.) -/
def street_has_path (g : StreetGraph) (o d : Int) : Bool :=
  d ∈ streetReachAux g (2 * g.edges.length + 1) [o]

/-- Embedding of `ServiceNetworkDesign.__post_init__`: the six validation checks, in
source order.  Construction succeeds iff all hold. -/
def sndValid (s : ServiceNetworkDesign) : Bool :=
  1 ≤ s.routes.length
    && 1 ≤ s.od_flows.length
    && s.routes.length ≤ s.fleet_composition.fleet.length
    && (s.routes.map (·.name)).dedup.length = s.routes.length
    && s.od_flows.all (fun f => street_has_path s.street_network_graph f.origin f.destination)
    && s.routes.all (fun r =>
        (consecPairs r.nodes).all (fun uv => streetHasEdge s.street_network_graph uv.1 uv.2))
    && s.street_network_graph.edges.all (fun e => e.2.2.weight.isSome)

/-- Embedding of `ServiceNetworkDesign._get_empty_service_network_graph`.  The source
iterates `for u, v, key, data in self.street_network_graph.edges(data=True)`:
on a (non-multi) `nx.Graph`, `edges(data=True)` yields 3-tuples
`(u, v, data)`, so unpacking into four names raises
`ValueError: not enough values to unpack` at the first edge.  An edgeless
street network yields an empty `MultiDiGraph` (the generator is never
entered, so neither the unpacking nor the `type != 'distance'` filter
runs). -/
def getEmptyServiceNetworkGraph (g : StreetGraph) : Except PyErr ServiceGraph :=
  if g.edges.isEmpty then Except.ok ⟨[]⟩ else Except.error PyErr.valueError

/-- Embedding of `MultiDiGraph.add_edge`: appends a parallel edge (its key is the next
integer, i.e. its position in insertion order). -/
def addServiceEdge (g : ServiceGraph) (u v : Int) (d : EdgeData) : ServiceGraph :=
  ⟨g.edges ++ [(u, v, d)]⟩

/-- Embedding of `self.street_network_graph[u][v]['weight']`: adjacency lookup in either
orientation, then the `weight` attribute; `KeyError` if the edge or the
attribute is missing. -/
def streetWeightAttr (g : StreetGraph) (u v : Int) : Except PyErr Rat :=
  match g.edges.find? (fun e => (e.1 = u && e.2.1 = v) || (e.1 = v && e.2.1 = u)) with
  | none => Except.error PyErr.keyError
  | some e =>
      match e.2.2.weight with
      | none => Except.error PyErr.keyError
      | some w => Except.ok w

/-- Python `/` on numbers: `ZeroDivisionError` on a zero divisor. -/
def pyDivQ (n d : Rat) : Except PyErr Rat :=
  if d = 0 then Except.error PyErr.zeroDivisionError else Except.ok (n / d)

/-- Lookup `d[bus]` on a dict: `KeyError` when the key is absent. -/
def dictGetE {α : Type} (l : List (Bus × α)) (b : Bus) : Except PyErr α :=
  match dictGet l b with
  | some v => Except.ok v
  | none => Except.error PyErr.keyError

/-- Embedding of `ServiceNetworkDesign._update_service_network_graphs`: rebuilds the
empty service graph (which raises whenever the street network has an edge),
reads the *last* appended assignment, overlays one directed `bus` edge per
route/assigned bus/consecutive pair with travel-time weight, and appends
the result to the graph history. -/
def updateServiceNetworkGraphs (s : ServiceNetworkDesign) :
    Except PyErr ServiceNetworkDesign := do
  let sg ← getEmptyServiceNetworkGraph s.street_network_graph
  let assignment ← match s.fleet_assignments.getLast? with
    | some a => Except.ok a
    | none => Except.error PyErr.indexError
  let sg ← s.routes.foldlM (fun sg route =>
    s.fleet_composition.fleet.foldlM (fun sg bus => do
      let flag ← dictGetE assignment.assigned_buses bus
      if flag then do
        let broute ← dictGetE assignment.assigned_bus_routes bus
        if broute = some route then
          (consecPairs route.nodes).foldlM (fun sg uv => do
            let w ← streetWeightAttr s.street_network_graph uv.1 uv.2
            let travel_time ← pyDivQ w bus.avg_speed
            Except.ok (addServiceEdge sg uv.1 uv.2
              { weight := some travel_time, typ := some "bus",
                route_id := some route.name,
                discomfort := some (bus.discomfort_level : Rat) })) sg
        else Except.ok sg
      else Except.ok sg) sg) sg
  Except.ok { s with service_network_graphs := s.service_network_graphs ++ [sg] }

/-- Embedding of `ServiceNetworkDesign.assign_buses`: calls the routine on a shallow
copy of the design, rejects when `buses_assigned` is falsy, otherwise
appends the assignment and then derives the graph.  Returns the post-call
state (observable even when the call raises) and the raised error. -/
def assign_buses (s : ServiceNetworkDesign)
    (routine : ServiceNetworkDesign → FleetAssignment) :
    ServiceNetworkDesign × Option PyErr :=
  let new_assignment := routine s
  if ¬ buses_assigned new_assignment then (s, some PyErr.valueError)
  else
    let s1 := { s with fleet_assignments := s.fleet_assignments ++ [new_assignment] }
    match updateServiceNetworkGraphs s1 with
    | Except.ok s2 => (s2, none)
    | Except.error e => (s1, some e)

/-- Python `list.remove`: drop the first element equal to the argument;
`none` when no element matches (then `remove` raises `ValueError` and the
list is unchanged). -/
def pyRemoveFirst (l : List FleetAssignment) (a : FleetAssignment) :
    Option (List FleetAssignment) :=
  match l with
  | [] => none
  | x :: rest => if x = a then some rest else (pyRemoveFirst rest a).map (x :: ·)

/-- Embedding of `ServiceNetworkDesign.remove_assignment`. -/
def remove_assignment (s : ServiceNetworkDesign) (a : FleetAssignment) :
    ServiceNetworkDesign × Option PyErr :=
  match pyRemoveFirst s.fleet_assignments a with
  | some l => ({ s with fleet_assignments := l }, none)
  | none => (s, some PyErr.valueError)

/-- Embedding of `ServiceNetworkDesign.remove_all_assignments`. -/
def remove_all_assignments (s : ServiceNetworkDesign) : ServiceNetworkDesign :=
  { s with fleet_assignments := [] }

/-! ### Flow analysis -/

/-- The record returned by `analyze_flow_for_assignment`. -/
structure FlowRecord where
  average_travel_time : Rat
  number_of_hops : Nat
  number_of_services : Nat
  transfers : Nat
  average_discomfort : Rat
  deriving DecidableEq, Repr

/-- Embedding of `graph[u][v][0]` on the multigraph: attribute dict of the parallel edge
with key `0`, i.e. the first stored edge from `u` to `v`; `KeyError` when
there is none. -/
def firstEdgeData (g : ServiceGraph) (u v : Int) : Except PyErr EdgeData :=
  match g.edges.find? (fun e => e.1 = u && e.2.1 = v) with
  | some e => Except.ok e.2.2
  | none => Except.error PyErr.keyError

/-- Embedding of `edge_data[attr]`: `KeyError` when the attribute is absent. -/
def attrGet {α : Type} (v : Option α) : Except PyErr α :=
  match v with
  | some x => Except.ok x
  | none => Except.error PyErr.keyError

/-- Python truthiness of the `prev_route` variable (`None` or a route-name
string): `None` and the empty string are falsy. -/
def pyTruthyStr (s : Option String) : Bool :=
  match s with
  | none => false
  | some t => t != ""

/-- Embedding of `set.add` observed through `len`: insertion-ordered list of the
distinct elements seen so far. -/
def setAdd (l : List String) (x : String) : List String :=
  if x ∈ l then l else l ++ [x]

/-- The mutable locals of the edge-walking loop of
`analyze_flow_for_assignment`. -/
structure FlowState where
  total_time : Rat
  unique_routes : List String
  transfers : Nat
  discomfort : Rat
  prev_route : Option String
  segments : Nat
  deriving DecidableEq, Repr

def initFlowState : FlowState :=
  { total_time := 0, unique_routes := [], transfers := 0, discomfort := 0,
    prev_route := none, segments := 0 }

/-- The effect of one iteration of the edge-walking loop on the loop
state, given the (already fetched) per-edge data: on a `"bus"`-typed edge
record the route name, discomfort, transfer (`prev_route and prev_route !=
route_id`, with Python truthiness of `prev_route`) and segment count. -/
def stepState (st : FlowState) (w : Rat) (busData : Option (String × Rat)) : FlowState :=
  match busData with
  | none => { st with total_time := st.total_time + w }
  | some (rid, dc) =>
      { total_time := st.total_time + w
        unique_routes := setAdd st.unique_routes rid
        discomfort := st.discomfort + dc
        transfers :=
          if pyTruthyStr st.prev_route && st.prev_route != some rid
          then st.transfers + 1 else st.transfers
        prev_route := some rid
        segments := st.segments + 1 }

/-- One iteration of the edge-walking loop: read the key-`0` edge of the
consecutive pair and its attributes (`weight`, then `type`, and for a
`"bus"` edge `route_id` and `discomfort` — any absent attribute raises
`KeyError`), then update the loop state. -/
def analyzeStep (g : ServiceGraph) (st : FlowState) (uv : Int × Int) :
    Except PyErr FlowState :=
  match firstEdgeData g uv.1 uv.2 with
  | Except.error e => Except.error e
  | Except.ok edge_data =>
      match edge_data.weight with
      | none => Except.error PyErr.keyError
      | some w =>
          match edge_data.typ with
          | none => Except.error PyErr.keyError
          | some t =>
              if t = "bus" then
                match edge_data.route_id with
                | none => Except.error PyErr.keyError
                | some rid =>
                    match edge_data.discomfort with
                    | none => Except.error PyErr.keyError
                    | some dc => Except.ok (stepState st w (some (rid, dc)))
              else Except.ok (stepState st w none)

/-- The edge-walking loop itself. -/
def analyzeLoop (g : ServiceGraph) : FlowState → List (Int × Int) → Except PyErr FlowState
  | st, [] => Except.ok st
  | st, uv :: rest =>
      match analyzeStep g st uv with
      | Except.error e => Except.error e
      | Except.ok st' => analyzeLoop g st' rest

/-- The loop and record assembly of `analyze_flow_for_assignment`, given
the path the shortest-path call computed. -/
def analyzeFlowCore (g : ServiceGraph) (path : List Int) : Except PyErr FlowRecord :=
  match analyzeLoop g initFlowState (consecPairs path) with
  | Except.error e => Except.error e
  | Except.ok st =>
      let total_edges := (consecPairs path).length
      Except.ok
        { average_travel_time :=
            if 0 < total_edges then st.total_time / (total_edges : Rat) else 0
          number_of_hops := total_edges
          number_of_services := st.unique_routes.length
          transfers := st.transfers
          average_discomfort :=
            if 0 < st.segments then st.discomfort / (st.segments : Rat) else 0 }

/-! ### The external shortest-path dependency -/

/-- networkx's effective weight of a multigraph node pair: the minimum
`weight` attribute over the parallel edges (a missing attribute counts
as 1), `none` when there is no edge. -/
def effWeight (g : ServiceGraph) (u v : Int) : Option Rat :=
  (g.edges.filterMap (fun e =>
    if e.1 = u && e.2.1 = v then some (e.2.2.weight.getD 1) else none)).min?

def serviceNodes (g : ServiceGraph) : List Int :=
  (g.edges.map (·.1) ++ g.edges.map (·.2.1)).dedup

def serviceSuccs (g : ServiceGraph) (u : Int) : List Int :=
  (g.edges.filterMap (fun e => if e.1 = u then some e.2.1 else none)).dedup

/-- All fuel-bounded simple directed paths from `cur` to `dest` avoiding
`visited`. -/
def simplePathsAux (g : ServiceGraph) : Nat → Int → Int → List Int → List (List Int)
  | 0, cur, dest, _ => if cur = dest then [[cur]] else []
  | n + 1, cur, dest, visited =>
      if cur = dest then [[cur]]
      else ((serviceSuccs g cur).filter (fun w => w ∉ visited)).flatMap
        (fun w => (simplePathsAux g n w dest (cur :: visited)).map (cur :: ·))

/-- Effective weights of the consecutive pairs of a path, `none` if some
pair has no edge. -/
def pathWeights (g : ServiceGraph) : List (Int × Int) → Option (List Rat)
  | [] => some []
  | uv :: rest =>
      match effWeight g uv.1 uv.2, pathWeights g rest with
      | some w, some ws => some (w :: ws)
      | _, _ => none

/-- Total effective weight of a node path, `none` if some consecutive pair
has no edge. -/
def pathCost (g : ServiceGraph) (p : List Int) : Option Rat :=
  (pathWeights g (consecPairs p)).map List.sum

/-- Modelled from the spec: the external graph library's
`nx.shortest_path(graph, origin, destination, weight="weight")` — "compute
the minimum-travel-time path from origin to destination using edge weight
as cost"; returns `none` when no path exists (networkx raises; ties go to
the first minimal path in enumeration order, which the spec declares
semantically irrelevant). -/
def shortestPathModel (g : ServiceGraph) (o d : Int) : Option (List Int) :=
  let cands := (simplePathsAux g (serviceNodes g).length o d []).filterMap
    (fun p => (pathCost g p).map (fun c => (p, c)))
  (cands.foldl (fun best pc =>
    match best with
    | none => some pc
    | some b => if pc.2 < b.2 then some pc else some b) none).map (·.1)

/-- Python `list.index`: position of the first element equal to the
argument. -/
def pyIndexOf (l : List FleetAssignment) (a : FleetAssignment) : Option Nat :=
  match l with
  | [] => none
  | x :: rest => if x = a then some 0 else (pyIndexOf rest a).map (· + 1)

/-- Embedding of `ServiceNetworkDesign.analyze_flow_for_assignment`: find the graph at
the assignment's history index (`list.index` raises `ValueError` when the
assignment is not in the history, the subscript raises `IndexError` when
the graph history is shorter), run the shortest-path call, then walk the
path. -/
def analyze_flow_for_assignment (s : ServiceNetworkDesign)
    (assignment : FleetAssignment) (od_flow : ODFlow) : Except PyErr FlowRecord :=
  match pyIndexOf s.fleet_assignments assignment with
  | none => Except.error PyErr.valueError
  | some i =>
      match s.service_network_graphs.get? i with
      | none => Except.error PyErr.indexError
      | some graph =>
          match shortestPathModel graph od_flow.origin od_flow.destination with
          | none => Except.error PyErr.networkXNoPath
          | some path => analyzeFlowCore graph path

/-! ### Demand-weighted aggregates -/

/-- Python `/` with an integer divisor, as used by the aggregates: the
numerator sum is fully evaluated first, then `ZeroDivisionError` on a zero
total flow. -/
def pyDivQI (n : Rat) (d : Int) : Except PyErr Rat :=
  if d = 0 then Except.error PyErr.zeroDivisionError else Except.ok (n / (d : Rat))

/-- Embedding of `sum(od_flow.flow for od_flow in self.od_flows)`. -/
def flowTotal (s : ServiceNetworkDesign) : Int :=
  (s.od_flows.map (·.flow)).sum

/-- The per-OD-flow analyses of the numerator generator of the aggregates,
in OD-flow list order; the whole numerator sum is evaluated before the
denominator, and the first failing analysis propagates its error. -/
def analyzeAll (s : ServiceNetworkDesign) (a : FleetAssignment) :
    List ODFlow → Except PyErr (List FlowRecord)
  | [] => Except.ok []
  | f :: rest =>
      match analyze_flow_for_assignment s a f with
      | Except.error e => Except.error e
      | Except.ok r =>
          match analyzeAll s a rest with
          | Except.error e => Except.error e
          | Except.ok rs => Except.ok (r :: rs)

/-- Embedding of `ServiceNetworkDesign.avg_travel_time_for_assignment`. -/
def avg_travel_time_for_assignment (s : ServiceNetworkDesign)
    (a : FleetAssignment) : Except PyErr Rat :=
  match analyzeAll s a s.od_flows with
  | Except.error e => Except.error e
  | Except.ok recs =>
      pyDivQI (((recs.zip s.od_flows).map
        (fun p => p.1.average_travel_time * (p.2.flow : Rat))).sum) (flowTotal s)

/-- Embedding of `ServiceNetworkDesign.avg_discomfort_level_for_assignment`. -/
def avg_discomfort_level_for_assignment (s : ServiceNetworkDesign)
    (a : FleetAssignment) : Except PyErr Rat :=
  match analyzeAll s a s.od_flows with
  | Except.error e => Except.error e
  | Except.ok recs =>
      pyDivQI (((recs.zip s.od_flows).map
        (fun p => p.1.average_discomfort * (p.2.flow : Rat))).sum) (flowTotal s)

/-- Embedding of `ServiceNetworkDesign.avg_transfers_for_assignment`. -/
def avg_transfers_for_assignment (s : ServiceNetworkDesign)
    (a : FleetAssignment) : Except PyErr Rat :=
  match analyzeAll s a s.od_flows with
  | Except.error e => Except.error e
  | Except.ok recs =>
      pyDivQI (((recs.zip s.od_flows).map
        (fun p => (p.1.transfers : Rat) * (p.2.flow : Rat))).sum) (flowTotal s)

/-- Embedding of `ServiceNetworkDesign.avg_hops_for_assignment`. -/
def avg_hops_for_assignment (s : ServiceNetworkDesign)
    (a : FleetAssignment) : Except PyErr Rat :=
  match analyzeAll s a s.od_flows with
  | Except.error e => Except.error e
  | Except.ok recs =>
      pyDivQI (((recs.zip s.od_flows).map
        (fun p => (p.1.number_of_hops : Rat) * (p.2.flow : Rat))).sum) (flowTotal s)

/-! ### Claim-side and amended-side views of the flow analysis -/

/-- The weight/bus-data item of one path edge as the loop body reads it:
the weight, and for a `"bus"`-typed edge its route name and discomfort. -/
def edgeItem (ed : EdgeData) : Except PyErr (Rat × Option (String × Rat)) :=
  match ed.weight with
  | none => Except.error PyErr.keyError
  | some w =>
      match ed.typ with
      | none => Except.error PyErr.keyError
      | some t =>
          if t = "bus" then
            match ed.route_id with
            | none => Except.error PyErr.keyError
            | some rid =>
                match ed.discomfort with
                | none => Except.error PyErr.keyError
                | some dc => Except.ok (w, some (rid, dc))
          else Except.ok (w, none)

/-- The items of all key-`0` edges along a sequence of consecutive pairs. -/
def analyzeItems (g : ServiceGraph) : List (Int × Int) →
    Except PyErr (List (Rat × Option (String × Rat)))
  | [] => Except.ok []
  | uv :: rest =>
      match firstEdgeData g uv.1 uv.2 with
      | Except.error e => Except.error e
      | Except.ok ed =>
          match edgeItem ed with
          | Except.error e => Except.error e
          | Except.ok item =>
              match analyzeItems g rest with
              | Except.error e => Except.error e
              | Except.ok items => Except.ok (item :: items)

/-- Amended transfer rule: a bus edge counts as a transfer when the
immediately preceding bus edge exists, has a non-empty route name, and that
name differs (the first bus edge never counts). -/
def countTransfersAmended : Option String → List String → Nat
  | _, [] => 0
  | prev, r :: rs =>
      (if pyTruthyStr prev && prev != some r then 1 else 0)
        + countTransfersAmended (some r) rs

/-- The flow record the amended claim predicts from the per-edge items:
hop count = path edges; averages over key-`0` weights and bus-edge
discomforts with the zero guards; distinct route names; amended transfer
count. -/
def specFlowRecord (items : List (Rat × Option (String × Rat))) : FlowRecord :=
  let hops := items.length
  let segs := items.filterMap (·.2)
  let names := segs.map (·.1)
  { average_travel_time :=
      if 0 < hops then (items.map (·.1)).sum / (hops : Rat) else 0
    number_of_hops := hops
    number_of_services := names.dedup.length
    transfers := countTransfersAmended none names
    average_discomfort :=
      if 0 < segs.length then (segs.map (·.2)).sum / (segs.length : Rat) else 0 }

/-- Modelled from the spec (claim C6 as stated): the traversed edge of a
consecutive pair on a minimum-travel-time path is the parallel edge of
minimal weight (first minimal on ties). -/
def claimEdge (g : ServiceGraph) (u v : Int) : Option EdgeData :=
  (g.edges.filterMap (fun e => if e.1 = u && e.2.1 = v then some e.2.2 else none)).foldl
    (fun best ed =>
      match best with
      | none => some ed
      | some b => if ed.weight.getD 1 < b.weight.getD 1 then some ed else some b) none

/-- Modelled from the spec (claim C6 as stated): route names of the
traversed bus-tagged edges, in path order. -/
def claimBusNames (g : ServiceGraph) (path : List Int) : List String :=
  (consecPairs path).filterMap (fun uv =>
    match claimEdge g uv.1 uv.2 with
    | some ed => if ed.typ = some "bus" then ed.route_id else none
    | none => none)

/-- Modelled from the spec (claim C6 as stated): "a transfer is counted
exactly each time a bus edge's route name differs from the immediately
preceding bus edge's route name, the first bus edge never counting as a
transfer" — no truthiness condition on the preceding name. -/
def countTransfersClaim : Option String → List String → Nat
  | _, [] => 0
  | prev, r :: rs =>
      (if prev.isSome && prev != some r then 1 else 0) + countTransfersClaim (some r) rs

/-- Modelled from the spec (claim C6 as stated): average travel time =
sum of traversed (minimum parallel) edge weights divided by hop count. -/
def claimAvgTravelTime (g : ServiceGraph) (path : List Int) : Option Rat :=
  (pathWeights g (consecPairs path)).map
    (fun ws => if 0 < ws.length then ws.sum / (ws.length : Rat) else 0)

/-! ### Concrete inputs (the scenario of the repository's own tests:
two bus types, the 3-node line street network with unit weights) -/

def busA : Bus :=
  { name := "Bus1", capacity := 60, per_mile_emissions := 3,
    procurement_price := 300000, annual_maintenance_cost := 25000,
    discomfort_level := 1, avg_speed := 12, uuid := 1 }

def busB : Bus :=
  { name := "Bus2", capacity := 90, per_mile_emissions := 5,
    procurement_price := 750000, annual_maintenance_cost := 40000,
    discomfort_level := 1, avg_speed := 12, uuid := 2 }

def opA : Operator := ⟨45028⟩

def compA : FleetComposition := ⟨[busA], [opA]⟩

def compAB : FleetComposition := ⟨[busA, busB], [opA, opA]⟩

def routeA : Route := ⟨"route_1", [0, 1, 2]⟩

def plainStreetEdge : EdgeData :=
  { weight := some 1, typ := none, route_id := none, discomfort := none }

def streetA : StreetGraph := ⟨[(0, 1, plainStreetEdge), (1, 2, plainStreetEdge)]⟩

def flowA : ODFlow := ⟨0, 1, 100⟩

def designA : ServiceNetworkDesign :=
  { routes := [routeA], od_flows := [flowA], fleet_composition := compA,
    street_network_graph := streetA, fleet_assignments := [],
    service_network_graphs := [] }

def designB : ServiceNetworkDesign :=
  { routes := [routeA], od_flows := [flowA], fleet_composition := compAB,
    street_network_graph := streetA, fleet_assignments := [],
    service_network_graphs := [] }

/-- A fully-assigned dict-state assignment for the one-bus composition. -/
def faFullA : FleetAssignment := ⟨compA, [(busA, true)], [(busA, some routeA)]⟩

/-- A fully-assigned dict-state assignment for the two-bus composition. -/
def faFullB : FleetAssignment :=
  ⟨compAB, [(busA, true), (busB, true)], [(busA, some routeA), (busB, some routeA)]⟩

/-- The dict-state assignment obtained from the class's own API: default
construction for the two-bus composition, then `assign_bus_to_route` of the
first bus onto `routeA`. -/
def faOneAssignedAB : FleetAssignment :=
  (assign_bus_to_route (FleetAssignment.default compAB) busA routeA).1

/-- A valid one-route, one-bus design whose single OD flow has volume 0,
with a manually aligned assignment and service graph so that the per-flow
analysis succeeds. -/
def routeW : Route := ⟨"route_1", [0, 1]⟩

def streetW : StreetGraph := ⟨[(0, 1, plainStreetEdge)]⟩

def flowZero : ODFlow := ⟨0, 1, 0⟩

def faW : FleetAssignment := ⟨compA, [(busA, true)], [(busA, some routeW)]⟩

def gW : ServiceGraph :=
  ⟨[(0, 1, { weight := some 1, typ := some "bus",
             route_id := some "route_1", discomfort := some 1 })]⟩

def designW : ServiceNetworkDesign :=
  { routes := [routeW], od_flows := [flowZero], fleet_composition := compA,
    street_network_graph := streetW, fleet_assignments := [faW],
    service_network_graphs := [gW] }

/-- A service graph with a bus edge carrying the empty route name followed
by a parallel pair of bus edges on route "X" whose first-stored edge is the
heavier one: the only path from 10 to 12 is 10→11→12. -/
def g6 : ServiceGraph :=
  ⟨[(10, 11, { weight := some 2, typ := some "bus",
               route_id := some "", discomfort := some 1 }),
    (11, 12, { weight := some 10, typ := some "bus",
               route_id := some "X", discomfort := some 5 }),
    (11, 12, { weight := some 1, typ := some "bus",
               route_id := some "X", discomfort := some 1 })]⟩

/-! ### Theorems -/

/-- Claim C1 (code bug).  On the valid design of the repository's own
`test_assign_buses` scenario, `assign_buses` with a routine returning a
fully-assigned assignment does not succeed: it appends the assignment, then
raises `ValueError` inside `_get_empty_service_network_graph` (the street
network's 3-tuple edges are unpacked into four names), so the call ends with
one appended assignment and zero appended graphs — the histories are not in
lock-step and no successful call exists. -/
theorem assign_buses_appends_assignment_but_never_a_graph :
    (assign_buses designA (fun _ => faFullA)).2 = some PyErr.valueError ∧
    (assign_buses designA (fun _ => faFullA)).1.fleet_assignments.length = 1 ∧
    (assign_buses designA (fun _ => faFullA)).1.service_network_graphs.length = 0 := by
  decide

/-- Claim C2 (code bug).  The derived service-network graph described by the
claim is never built: `_get_empty_service_network_graph` succeeds exactly on
an edgeless street network (any real edge triggers the 3-into-4 tuple
unpacking `ValueError` before the `type != 'distance'` filter or any bus
edge is considered), and on the concrete valid design the whole update step
raises. -/
theorem service_graph_derivation_raises_on_any_street_edge :
    (∀ g : StreetGraph, ((getEmptyServiceNetworkGraph g).isOk ↔ g.edges = [])) ∧
    updateServiceNetworkGraphs
      { designA with fleet_assignments := [faFullA] } = Except.error PyErr.valueError := by
  refine ⟨fun g => ?_, by decide⟩
  unfold getEmptyServiceNetworkGraph
  rcases g with ⟨edges⟩
  cases edges <;> simp [List.isEmpty, Except.isOk, Except.toBool]

/-- Claim C3 (code bug).  The default (all-unassigned) dict-state
assignment is not fully assigned, yet `buses_assigned` — `all` over the
dict's keys, which are truthy `Bus` objects — evaluates to `True`, so
`assign_buses` accepts it and appends it to the history: an error is raised
only later (while deriving the graph), after the fleet-assignment history
has already grown from 0 to 1 entries. -/
theorem incomplete_assignment_passes_check_and_is_appended :
    spec_buses_assigned (FleetAssignment.default compA) = false ∧
    buses_assigned (FleetAssignment.default compA) = true ∧
    (assign_buses designA (fun _ => FleetAssignment.default compA)).2
      = some PyErr.valueError ∧
    (assign_buses designA
      (fun _ => FleetAssignment.default compA)).1.fleet_assignments.length = 1 := by
  decide

/-- Claim C4 (code bug).  With the dict-typed state the dataclass declares,
every per-route query zips the fleet with the two dicts — iterating a dict
yields its keys — so the filter compares a `Bus` key against the `Route`
argument and is always false: after assigning the first bus to the route
through the class's own API, all five queries return 0, while the
spec-worded queries return the assigned bus's figures. -/
theorem per_route_queries_always_return_zero :
    (assign_bus_to_route (FleetAssignment.default compAB) busA routeA).2 = none ∧
    capacity_for_route faOneAssignedAB routeA = 0 ∧
    spec_capacity_for_route faOneAssignedAB routeA = 60 ∧
    capital_cost_for_route faOneAssignedAB routeA = 0 ∧
    spec_capital_cost_for_route faOneAssignedAB routeA = 300000 ∧
    operational_cost_for_route faOneAssignedAB routeA = 0 ∧
    spec_operational_cost_for_route faOneAssignedAB routeA = 70028 ∧
    emissions_for_route faOneAssignedAB routeA = 0 ∧
    spec_emissions_for_route faOneAssignedAB routeA = 3 ∧
    num_buses_assigned_to_route faOneAssignedAB routeA = 0 ∧
    spec_num_buses_assigned_to_route faOneAssignedAB routeA = 1 := by
  simp +decide [faOneAssignedAB, assign_bus_to_route, FleetAssignment.default, compAB,
    busA, busB, routeA, opA, dictGet, dictSet, dictKeys, pyTruthyBus, pyEqBusRoute,
    routeQueryTriples, routeQueryFilter, operatorQueryTriples, capacity_for_route,
    spec_capacity_for_route, capital_cost_for_route, spec_capital_cost_for_route,
    operational_cost_for_route, spec_operational_cost_for_route, emissions_for_route,
    spec_emissions_for_route, num_buses_assigned_to_route,
    spec_num_buses_assigned_to_route, specBusOnRoute]

/-- Claim C5 (code bug).  `assign_buses` is not atomic with respect to
errors: on the two-bus valid design it raises (the graph-derivation
`ValueError`) yet leaves the design mutated — the returned assignment is
already in the history.  By contrast `assign_bus_to_route` on an
already-assigned bus raises and leaves the assignment state exactly as it
was. -/
theorem assign_buses_raises_after_mutating :
    (assign_buses designB (fun _ => faFullB)).2 = some PyErr.valueError ∧
    (assign_buses designB (fun _ => faFullB)).1 ≠ designB ∧
    (assign_buses designB (fun _ => faFullB)).1.fleet_assignments = [faFullB] ∧
    (assign_bus_to_route faFullB busA routeA).2 = some PyErr.valueError ∧
    (assign_bus_to_route faFullB busA routeA).1 = faFullB := by
  decide

/-- Claim C7 (code bug).  `total_emissions` zips the fleet with the dict's
keys, and every `Bus` key is truthy, so every bus in the composition
contributes regardless of its assigned flag: with only the first of two
buses assigned, the code sums both emission rates (3 + 5 = 8) while the
spec-worded sum over assigned buses gives only the first rate (3); on the
fully-unassigned default state the code still returns the full-fleet sum
instead of 0. -/
theorem total_emissions_ignores_assigned_flags :
    total_emissions faOneAssignedAB = 8 ∧
    spec_total_emissions faOneAssignedAB = 3 ∧
    total_emissions (FleetAssignment.default compAB) = 8 ∧
    spec_total_emissions (FleetAssignment.default compAB) = 0 := by
  refine ⟨?_, ?_, ?_, ?_⟩ <;>
    simp +decide [faOneAssignedAB, assign_bus_to_route, FleetAssignment.default,
      compAB, busA, busB, routeA, opA, dictGet, dictSet, dictKeys, pyTruthyBus,
      total_emissions, spec_total_emissions] <;> norm_num

/-- Python `list.remove` returns `none` (raises) exactly when no element equals
the argument. -/
theorem pyRemoveFirst_none_iff (l : List FleetAssignment) (a : FleetAssignment) :
    pyRemoveFirst l a = none ↔ a ∉ l := by
  induction l with
  | nil => simp [pyRemoveFirst]
  | cons x rest ih =>
      by_cases hx : x = a
      · subst hx
        simp [pyRemoveFirst]
      · have hx' : ¬ a = x := fun h => hx h.symm
        simp [pyRemoveFirst, hx, hx', Option.map_eq_none', ih]

/-- A successful `list.remove` shortens the list by exactly one element. -/
theorem pyRemoveFirst_length (l : List FleetAssignment) (a : FleetAssignment) :
    ∀ l', pyRemoveFirst l a = some l' → l'.length + 1 = l.length := by
  induction l with
  | nil => intro l' h; simp [pyRemoveFirst] at h
  | cons x rest ih =>
      intro l' h
      by_cases hx : x = a
      · simp [pyRemoveFirst, hx] at h
        simp [← h]
      · simp only [pyRemoveFirst, if_neg hx, Option.map_eq_some'] at h
        obtain ⟨l'', hl'', rfl⟩ := h
        simp [← ih l'' hl'']

/-- Claim C9 (confirmed).  `remove_assignment` and
`remove_all_assignments` touch the fleet-assignment history only: in every
state, whether or not removal succeeds, the service-network-graph history
is exactly what it was — no graph is removed or re-indexed — while the
assignment history loses one entry on a successful `remove_assignment`
(none when the argument is absent and the call raises) and all entries on
`remove_all_assignments`. -/
theorem remove_ops_leave_graph_history_unchanged
    (s : ServiceNetworkDesign) (a : FleetAssignment) :
    (remove_assignment s a).1.service_network_graphs = s.service_network_graphs ∧
    (remove_all_assignments s).service_network_graphs = s.service_network_graphs ∧
    (remove_all_assignments s).fleet_assignments = [] ∧
    ((remove_assignment s a).2 = none ↔ a ∈ s.fleet_assignments) ∧
    (remove_assignment s a).1.fleet_assignments.length
      = (if a ∈ s.fleet_assignments
          then s.fleet_assignments.length - 1 else s.fleet_assignments.length) := by
  refine ⟨?_, rfl, rfl, ?_, ?_⟩
  · unfold remove_assignment
    cases h : pyRemoveFirst s.fleet_assignments a <;> rfl
  · unfold remove_assignment
    cases h : pyRemoveFirst s.fleet_assignments a
    · have := (pyRemoveFirst_none_iff s.fleet_assignments a).mp h
      simp [this]
    · have hne : pyRemoveFirst s.fleet_assignments a ≠ none := by simp [h]
      have := (not_congr (pyRemoveFirst_none_iff s.fleet_assignments a)).mp hne
      simp [not_not.mp this]
  · unfold remove_assignment
    cases h : pyRemoveFirst s.fleet_assignments a
    · have := (pyRemoveFirst_none_iff s.fleet_assignments a).mp h
      simp [this]
    · next l' =>
      have hmem : a ∈ s.fleet_assignments := by
        have hne : pyRemoveFirst s.fleet_assignments a ≠ none := by simp [h]
        exact not_not.mp ((not_congr (pyRemoveFirst_none_iff s.fleet_assignments a)).mp hne)
      have hlen := pyRemoveFirst_length s.fleet_assignments a l' h
      simp [hmem, ← hlen]

/-- Updating a dict entry makes lookup of that key return the new value. -/
theorem dictGet_dictSet_same {α : Type} (l : List (Bus × α)) (b : Bus) (v : α) :
    dictGet (dictSet l b v) b = some v := by
  induction l with
  | nil => simp [dictGet, dictSet]
  | cons p rest ih =>
      by_cases h : p.1 = b
      · simp [dictSet, h, dictGet]
      · simpa [dictSet, h, dictGet] using ih

/-- Updating a dict entry leaves lookup of every other key unchanged. -/
theorem dictGet_dictSet_other {α : Type} (l : List (Bus × α)) (b b' : Bus) (v : α)
    (h : b' ≠ b) : dictGet (dictSet l b v) b' = dictGet l b' := by
  induction l with
  | nil =>
      have hb : (b = b') = False := eq_false fun hh => h (Eq.symm hh)
      simp [dictGet, dictSet, List.find?, hb]
  | cons p rest ih =>
      unfold dictSet
      by_cases hp : p.1 = b
      · rw [if_pos hp]
        have hb : (b = b') = False := eq_false fun hh => h (Eq.symm hh)
        have hpb : (p.1 = b') = False := eq_false fun hh => h (hh.symm.trans hp)
        simp [dictGet, List.find?, hb, hpb]
      · rw [if_neg hp]
        by_cases hp' : p.1 = b'
        · simp [dictGet, List.find?, hp']
        · have hpb : (p.1 = b') = False := eq_false hp'
          simp only [dictGet, List.find?, hpb, decide_False] at ih ⊢
          simpa using ih

/-- Dict lookup misses exactly the keys outside the dict. -/
theorem dictGet_eq_none_iff {α : Type} (l : List (Bus × α)) (b : Bus) :
    dictGet l b = none ↔ b ∉ dictKeys l := by
  induction l with
  | nil => simp [dictGet, dictKeys]
  | cons p rest ih =>
      by_cases hp : p.1 = b
      · simp [dictGet, dictKeys, hp]
      · have : ¬ b = p.1 := fun hh => hp (Eq.symm hh)
        simpa [dictGet, dictKeys, hp, this] using ih

/-- Claim C8 (confirmed).  For every assignment whose state dicts are keyed
by the composition's fleet (as `__post_init__` establishes),
`assign_bus_to_route` (a) raises for a bus outside the composition and
leaves the state unchanged, (b) raises for a bus whose flag is already
true, (c) on a bus with flag false succeeds, sets the flag, records the
route, and makes a second call on the same bus raise, and (d) never loses
an existing true flag through a call on any other bus — so no sequence of
calls can assign the same bus twice. -/
theorem assign_bus_to_route_contract
    (fa : FleetAssignment) (b b' : Bus) (r r' : Route)
    (hkeys : dictKeys fa.assigned_buses = fa.composition.fleet) :
    (b ∉ fa.composition.fleet →
      assign_bus_to_route fa b r = (fa, some PyErr.valueError)) ∧
    (dictGet fa.assigned_buses b = some true →
      assign_bus_to_route fa b r = (fa, some PyErr.valueError)) ∧
    (dictGet fa.assigned_buses b = some false →
      (assign_bus_to_route fa b r).2 = none ∧
      dictGet (assign_bus_to_route fa b r).1.assigned_buses b = some true ∧
      dictGet (assign_bus_to_route fa b r).1.assigned_bus_routes b = some (some r) ∧
      (assign_bus_to_route (assign_bus_to_route fa b r).1 b r').2
        = some PyErr.valueError) ∧
    (dictGet fa.assigned_buses b = some true →
      (assign_bus_to_route fa b' r').2 = none →
      dictGet (assign_bus_to_route fa b' r').1.assigned_buses b = some true) := by
  refine ⟨?_, ?_, ?_, ?_⟩
  · intro hb
    have hnone : dictGet fa.assigned_buses b = none := by
      rw [dictGet_eq_none_iff, hkeys]
      exact hb
    simp [assign_bus_to_route, hnone]
  · intro hb
    simp [assign_bus_to_route, hb]
  · intro hb
    have hstep : assign_bus_to_route fa b r
        = ({ composition := fa.composition,
             assigned_buses := dictSet fa.assigned_buses b true,
             assigned_bus_routes := dictSet fa.assigned_bus_routes b (some r) },
           none) := by
      simp [assign_bus_to_route, hb]
    refine ⟨by rw [hstep], ?_, ?_, ?_⟩
    · rw [hstep]
      exact dictGet_dictSet_same _ _ _
    · rw [hstep]
      exact dictGet_dictSet_same _ _ _
    · rw [hstep]
      simp [assign_bus_to_route, dictGet_dictSet_same]
  · intro hb hok
    cases hlook : dictGet fa.assigned_buses b' with
    | none => simp [assign_bus_to_route, hlook] at hok
    | some fl =>
        cases fl with
        | true => simp [assign_bus_to_route, hlook] at hok
        | false =>
            have hne : b ≠ b' := by
              intro hbb
              rw [hbb] at hb
              rw [hlook] at hb
              simp at hb
            have hstep : assign_bus_to_route fa b' r'
                = ({ composition := fa.composition,
                     assigned_buses := dictSet fa.assigned_buses b' true,
                     assigned_bus_routes := dictSet fa.assigned_bus_routes b' (some r') },
                   none) := by
              simp [assign_bus_to_route, hlook]
            rw [hstep]
            exact (dictGet_dictSet_other fa.assigned_buses b' b true hne).trans hb

/-- Concrete exercise of `assign_bus_to_route_contract` on the default
two-bus assignment: the first assignment of `busA` succeeds and records the
route, and repeating it raises. -/
theorem assign_bus_to_route_contract_witness :
    (assign_bus_to_route (FleetAssignment.default compAB) busA routeA).2 = none ∧
    dictGet (assign_bus_to_route
      (FleetAssignment.default compAB) busA routeA).1.assigned_buses busA = some true ∧
    dictGet (assign_bus_to_route
      (FleetAssignment.default compAB) busA routeA).1.assigned_bus_routes busA
        = some (some routeA) ∧
    (assign_bus_to_route (assign_bus_to_route
      (FleetAssignment.default compAB) busA routeA).1 busA routeA).2
        = some PyErr.valueError := by
  have h := assign_bus_to_route_contract
    (FleetAssignment.default compAB) busA busB routeA routeA (by decide)
  exact h.2.2.1 (by decide)

/-- Claim C10 (confirmed).  `ODFlow` construction accepts a zero flow
whenever origin and destination differ, and on every valid design all of
whose OD flows have flow 0, each of the four demand-weighted aggregates —
provided its per-flow analyses succeed, so that the numerator sum is fully
evaluated — divides by the zero total flow and raises `ZeroDivisionError`
instead of returning a value. -/
theorem zero_flow_aggregates_raise_zero_division
    (s : ServiceNetworkDesign) (a : FleetAssignment)
    (_hvalid : sndValid s = true)
    (hzero : ∀ f ∈ s.od_flows, f.flow = 0)
    (hok : (analyzeAll s a s.od_flows).isOk = true) :
    avg_travel_time_for_assignment s a = Except.error PyErr.zeroDivisionError ∧
    avg_discomfort_level_for_assignment s a = Except.error PyErr.zeroDivisionError ∧
    avg_transfers_for_assignment s a = Except.error PyErr.zeroDivisionError ∧
    avg_hops_for_assignment s a = Except.error PyErr.zeroDivisionError ∧
    (∀ o d : Int, odflowValid ⟨o, d, 0⟩ = (o != d)) := by
  have hflow : flowTotal s = 0 := by
    unfold flowTotal
    apply List.sum_eq_zero
    intro x hx
    obtain ⟨f, hf, rfl⟩ := List.mem_map.mp hx
    exact hzero f hf
  cases hmap : analyzeAll s a s.od_flows with
  | error e =>
      rw [hmap] at hok
      simp [Except.isOk, Except.toBool] at hok
  | ok recs =>
      refine ⟨?_, ?_, ?_, ?_, ?_⟩ <;>
        simp [avg_travel_time_for_assignment, avg_discomfort_level_for_assignment,
          avg_transfers_for_assignment, avg_hops_for_assignment, hmap, hflow,
          pyDivQI, odflowValid]

/-- Concrete exercise of `zero_flow_aggregates_raise_zero_division` on the
one-flow design with flow volume 0: all four aggregates raise
`ZeroDivisionError`. -/
theorem zero_flow_aggregates_raise_zero_division_witness :
    avg_travel_time_for_assignment designW faW = Except.error PyErr.zeroDivisionError ∧
    avg_discomfort_level_for_assignment designW faW
      = Except.error PyErr.zeroDivisionError ∧
    avg_transfers_for_assignment designW faW = Except.error PyErr.zeroDivisionError ∧
    avg_hops_for_assignment designW faW = Except.error PyErr.zeroDivisionError := by
  have h := zero_flow_aggregates_raise_zero_division designW faW
    (by decide) (by decide) (by decide)
  exact ⟨h.1, h.2.1, h.2.2.1, h.2.2.2.1⟩

/-! ### The edge-walking loop versus its compositional description -/

/-- Folding the per-edge state update accumulates the edge weights. -/
theorem foldl_stepState_total_time (items : List (Rat × Option (String × Rat))) :
    ∀ st : FlowState,
    (items.foldl (fun st p => stepState st p.1 p.2) st).total_time
      = st.total_time + (items.map (·.1)).sum := by
  induction items with
  | nil => intro st; simp
  | cons p rest ih =>
      intro st
      obtain ⟨w, bd⟩ := p
      have hstep : (stepState st w bd).total_time = st.total_time + w := by
        cases bd with
        | none => rfl
        | some rd => rfl
      simp only [List.foldl_cons, List.map_cons, List.sum_cons, ih (stepState st w bd), hstep]
      ring

/-- Folding the per-edge state update counts the bus segments. -/
theorem foldl_stepState_segments (items : List (Rat × Option (String × Rat))) :
    ∀ st : FlowState,
    (items.foldl (fun st p => stepState st p.1 p.2) st).segments
      = st.segments + (items.filterMap (·.2)).length := by
  induction items with
  | nil => intro st; simp
  | cons p rest ih =>
      intro st
      obtain ⟨w, bd⟩ := p
      cases bd with
      | none => simpa [stepState] using ih (stepState st w none)
      | some rd =>
          obtain ⟨rid, dc⟩ := rd
          have := ih (stepState st w (some (rid, dc)))
          simp [stepState] at this
          simp [this, stepState]
          omega

/-- Folding the per-edge state update accumulates the bus-edge
discomforts. -/
theorem foldl_stepState_discomfort (items : List (Rat × Option (String × Rat))) :
    ∀ st : FlowState,
    (items.foldl (fun st p => stepState st p.1 p.2) st).discomfort
      = st.discomfort + ((items.filterMap (·.2)).map (·.2)).sum := by
  induction items with
  | nil => intro st; simp
  | cons p rest ih =>
      intro st
      obtain ⟨w, bd⟩ := p
      cases bd with
      | none => simpa [stepState] using ih (stepState st w none)
      | some rd =>
          obtain ⟨rid, dc⟩ := rd
          have := ih (stepState st w (some (rid, dc)))
          simp [stepState] at this
          simp [this, stepState]
          ring

/-- Folding the per-edge state update counts transfers according to the
amended rule, threading the previous route name. -/
theorem foldl_stepState_transfers (items : List (Rat × Option (String × Rat))) :
    ∀ st : FlowState,
    (items.foldl (fun st p => stepState st p.1 p.2) st).transfers
      = st.transfers
        + countTransfersAmended st.prev_route ((items.filterMap (·.2)).map (·.1)) := by
  induction items with
  | nil => intro st; simp [countTransfersAmended]
  | cons p rest ih =>
      intro st
      obtain ⟨w, bd⟩ := p
      cases bd with
      | none =>
          have := ih (stepState st w none)
          simpa [stepState] using this
      | some rd =>
          obtain ⟨rid, dc⟩ := rd
          have := ih (stepState st w (some (rid, dc)))
          simp [stepState] at this
          simp [this, stepState, countTransfersAmended]
          split <;> omega

/-- Folding the per-edge state update collects the distinct bus route
names seen so far. -/
theorem foldl_stepState_unique (items : List (Rat × Option (String × Rat))) :
    ∀ st : FlowState,
    (items.foldl (fun st p => stepState st p.1 p.2) st).unique_routes
      = ((items.filterMap (·.2)).map (·.1)).foldl setAdd st.unique_routes := by
  induction items with
  | nil => intro st; simp
  | cons p rest ih =>
      intro st
      obtain ⟨w, bd⟩ := p
      cases bd with
      | none => simpa [stepState] using ih (stepState st w none)
      | some rd =>
          obtain ⟨rid, dc⟩ := rd
          have := ih (stepState st w (some (rid, dc)))
          simp [stepState] at this
          simp [this, stepState]

/-- Membership in `setAdd`. -/
theorem mem_setAdd (l : List String) (x y : String) :
    y ∈ setAdd l x ↔ y ∈ l ∨ y = x := by
  unfold setAdd
  by_cases h : x ∈ l
  · rw [if_pos h]
    constructor
    · exact Or.inl
    · rintro (hy | rfl)
      · exact hy
      · exact h
  · rw [if_neg h]
    simp

/-- The function `setAdd` preserves distinctness. -/
theorem nodup_setAdd (l : List String) (x : String) (h : l.Nodup) :
    (setAdd l x).Nodup := by
  unfold setAdd
  by_cases hx : x ∈ l
  · rwa [if_pos hx]
  · rw [if_neg hx]
    simp [List.nodup_append, h, hx]

/-- Folding `setAdd` preserves distinctness. -/
theorem nodup_foldl_setAdd (names : List String) :
    ∀ acc : List String, acc.Nodup → (names.foldl setAdd acc).Nodup := by
  induction names with
  | nil => intro acc h; simpa using h
  | cons r rs ih =>
      intro acc h
      simpa using ih (setAdd acc r) (nodup_setAdd acc r h)

/-- Membership after folding `setAdd`. -/
theorem mem_foldl_setAdd (names : List String) :
    ∀ (acc : List String) (y : String),
      y ∈ names.foldl setAdd acc ↔ y ∈ acc ∨ y ∈ names := by
  induction names with
  | nil => intro acc y; simp
  | cons r rs ih =>
      intro acc y
      simp only [List.foldl_cons, ih (setAdd acc r) y, mem_setAdd, List.mem_cons]
      tauto

/-- The loop's `set` of route names has as many elements as the list of
distinct names: Python's `len(set(names))`. -/
theorem length_foldl_setAdd (names : List String) :
    (names.foldl setAdd []).length = names.dedup.length := by
  have h1 : (names.foldl setAdd []).Nodup := nodup_foldl_setAdd names [] (by simp)
  have h2 : names.dedup.Nodup := names.nodup_dedup
  have hfin : (names.foldl setAdd []).toFinset = names.dedup.toFinset := by
    ext y
    simp [List.mem_toFinset, mem_foldl_setAdd, List.mem_dedup]
  have c1 := List.toFinset_card_of_nodup h1
  have c2 := List.toFinset_card_of_nodup h2
  rw [← c1, ← c2, hfin]

/-- A successful `analyzeItems` yields one item per consecutive pair. -/
theorem analyzeItems_length (g : ServiceGraph) :
    ∀ (pairs : List (Int × Int)) (items : List (Rat × Option (String × Rat))),
      analyzeItems g pairs = Except.ok items → items.length = pairs.length := by
  intro pairs
  induction pairs with
  | nil =>
      intro items h
      simp [analyzeItems] at h
      simp [← h]
  | cons uv rest ih =>
      intro items h
      unfold analyzeItems at h
      cases hed : firstEdgeData g uv.1 uv.2 with
      | error e => rw [hed] at h; cases h
      | ok ed =>
          rw [hed] at h
          dsimp only at h
          cases hit : edgeItem ed with
          | error e => rw [hit] at h; cases h
          | ok item =>
              rw [hit] at h
              dsimp only at h
              cases hrest : analyzeItems g rest with
              | error e => rw [hrest] at h; cases h
              | ok items' =>
                  rw [hrest] at h
                  dsimp only at h
                  cases h
                  simpa using ih items' hrest

/-- When the per-edge data of a pair yields an item, the loop body performs
exactly the corresponding state update. -/
theorem analyzeStep_of_item (g : ServiceGraph) (st : FlowState) (uv : Int × Int)
    (ed : EdgeData) (w : Rat) (bd : Option (String × Rat))
    (hed : firstEdgeData g uv.1 uv.2 = Except.ok ed)
    (hit : edgeItem ed = Except.ok (w, bd)) :
    analyzeStep g st uv = Except.ok (stepState st w bd) := by
  unfold analyzeStep
  rw [hed]
  dsimp only
  unfold edgeItem at hit
  cases hw : ed.weight with
  | none => rw [hw] at hit; simp at hit
  | some w' =>
      rw [hw] at hit
      dsimp only at hit ⊢
      cases ht : ed.typ with
      | none => rw [ht] at hit; simp at hit
      | some t =>
          rw [ht] at hit
          dsimp only at hit ⊢
          by_cases hbus : t = "bus"
          · rw [if_pos hbus] at hit ⊢
            cases hr : ed.route_id with
            | none => rw [hr] at hit; simp at hit
            | some rid =>
                rw [hr] at hit
                dsimp only at hit ⊢
                cases hd : ed.discomfort with
                | none => rw [hd] at hit; simp at hit
                | some dc =>
                    rw [hd] at hit
                    dsimp only at hit ⊢
                    cases hit
                    rfl
          · rw [if_neg hbus] at hit ⊢
            cases hit
            rfl

/-- When every pair yields an item, the loop runs to completion and equals
the pure fold of the state updates. -/
theorem analyzeLoop_of_items (g : ServiceGraph) :
    ∀ (pairs : List (Int × Int)) (items : List (Rat × Option (String × Rat)))
      (st : FlowState), analyzeItems g pairs = Except.ok items →
      analyzeLoop g st pairs
        = Except.ok (items.foldl (fun st p => stepState st p.1 p.2) st) := by
  intro pairs
  induction pairs with
  | nil =>
      intro items st h
      unfold analyzeItems at h
      cases h
      simp [analyzeLoop]
  | cons uv rest ih =>
      intro items st h
      unfold analyzeItems at h
      cases hed : firstEdgeData g uv.1 uv.2 with
      | error e => rw [hed] at h; cases h
      | ok ed =>
          rw [hed] at h
          dsimp only at h
          cases hit : edgeItem ed with
          | error e => rw [hit] at h; cases h
          | ok item =>
              rw [hit] at h
              dsimp only at h
              cases hrest : analyzeItems g rest with
              | error e => rw [hrest] at h; cases h
              | ok items' =>
                  rw [hrest] at h
                  dsimp only at h
                  cases h
                  unfold analyzeLoop
                  rw [analyzeStep_of_item g st uv ed item.1 item.2 hed (by simpa using hit)]
                  dsimp only
                  simpa using ih items' (stepState st item.1 item.2) hrest

/-- Claim C6 as amended (corrected).  For every service-network graph and
computed path whose per-edge reads all succeed, the flow-analysis record is
exactly: hop count = number of path edges; average travel time = sum of the
first-stored (key 0) edge weights of the consecutive pairs ÷ hop count (0 on
zero hops); average discomfort = sum of the key-0 bus edges' discomforts ÷
their count (0 if none); distinct-service count = number of distinct route
names among those bus edges; and a transfer counted each time a bus edge's
route name differs from the immediately preceding bus edge's route name
*and* that preceding name is non-empty (the first bus edge never counts) —
the record reads key-0 parallel edges, not the minimum-weight ones the
shortest-path computation traversed. -/
theorem analyzeFlowCore_matches_amended_record
    (g : ServiceGraph) (path : List Int) (items : List (Rat × Option (String × Rat)))
    (hitems : analyzeItems g (consecPairs path) = Except.ok items) :
    analyzeFlowCore g path = Except.ok (specFlowRecord items) := by
  have hlen := analyzeItems_length g (consecPairs path) items hitems
  have hloop := analyzeLoop_of_items g (consecPairs path) items initFlowState hitems
  have h1 := foldl_stepState_total_time items initFlowState
  have h2 := foldl_stepState_segments items initFlowState
  have h3 := foldl_stepState_discomfort items initFlowState
  have h4 := foldl_stepState_transfers items initFlowState
  have h5 := foldl_stepState_unique items initFlowState
  have e1 : initFlowState.total_time = 0 := rfl
  have e2 : initFlowState.segments = 0 := rfl
  have e3 : initFlowState.discomfort = 0 := rfl
  have e4 : initFlowState.prev_route = none := rfl
  have e5 : initFlowState.unique_routes = [] := rfl
  have e6 : initFlowState.transfers = 0 := rfl
  simp only [e1, e2, e3, e4, e5, e6, zero_add, Nat.zero_add] at h1 h2 h3 h4 h5
  unfold analyzeFlowCore
  rw [hloop]
  dsimp only
  unfold specFlowRecord
  rw [h1, h2, h3, h4, h5, length_foldl_setAdd, ← hlen]

/-- Concrete exercise of `analyzeFlowCore_matches_amended_record` on the
three-node graph with an empty-named bus route and a parallel pair. -/
theorem analyzeFlowCore_matches_amended_record_witness :
    analyzeFlowCore g6 [10, 11, 12]
      = Except.ok (specFlowRecord [(2, some ("", 1)), (10, some ("X", 5))]) :=
  analyzeFlowCore_matches_amended_record g6 [10, 11, 12]
    [(2, some ("", 1)), (10, some ("X", 5))] (by decide)

/-- Claim C6 as stated is false.  On the graph `g6` the only path from 10
to 12 is 10→11→12; its two bus edges carry the route names "" and "X", so
the claim counts one transfer, but the code counts none (`prev_route` is
the falsy empty string); and the code sums the key-0 parallel edge weights
(2 + 10, average 6) where the claim's traversed minimum-weight edges sum to
2 + 1 (average 3/2). -/
theorem flow_analysis_record_contradicts_claim :
    shortestPathModel g6 10 12 = some [10, 11, 12] ∧
    (analyzeFlowCore g6 [10, 11, 12]).map (fun r => r.transfers) = Except.ok 0 ∧
    countTransfersClaim none (claimBusNames g6 [10, 11, 12]) = 1 ∧
    (analyzeFlowCore g6 [10, 11, 12]).map (fun r => r.average_travel_time)
      = Except.ok 6 ∧
    claimAvgTravelTime g6 [10, 11, 12] = some (3/2) := by
  have hlt : ((1 : Rat) < 10) = True := eq_true (by norm_num)
  have hmin : min (10 : Rat) 1 = 1 := min_eq_right (by norm_num)
  refine ⟨by decide, by decide, ?_, ?_, ?_⟩
  · simp +decide [claimBusNames, claimEdge, g6, consecPairs, EdgeData.weight, hlt,
      countTransfersClaim]
  · simp +decide [analyzeFlowCore, analyzeLoop, analyzeStep, firstEdgeData, g6,
      stepState, initFlowState, consecPairs, pyTruthyStr, setAdd, Except.map]
    norm_num
  · simp +decide [claimAvgTravelTime, pathWeights, effWeight, g6, consecPairs,
      List.min?, hmin]
    norm_num

end Act4brd
